import Mathlib

/-!
Verification of the weather-API caching proxy.

The development shallowly embeds the core of the repository:

* `src/config/cache.js` — the `cacheClient` wrapper (get / set / del / flushAll)
  around a `node-cache` store configured with a baseline TTL and
  `useClones: false`;
* `src/services/weatherService.js` — `generateCacheKey` and the cache-aside
  pipeline `getWeatherData`;
* `src/routes/weatherRoutes.js` — the forecast-days truncation projection.

JavaScript values stored in the cache are modelled by an arbitrary type `V`
together with a JS-truthiness function `truthy : V → Bool` (the pipeline tests
`if (cachedData)`).  The `node-cache` library itself is a dependency whose
source is not part of the repository; where its internals decide a property,
the corresponding definition is modelled from the specification and says so in
its doc comment.  Time is in seconds, as in `node-cache` TTLs.
-/

set_option autoImplicit false

namespace WeatherAPI

universe u

variable {V : Type u}

/-- A cache entry: the stored payload and the absolute expiry time
(`createdAt + ttlSeconds`). -/
structure CacheEntry (V : Type u) where
  value : V
  expiresAt : Int
  deriving Repr, DecidableEq

/-- The in-memory store behind `config/cache.js`: an association list of
entries plus the lifetime hit/miss counters kept by `node-cache`. -/
structure Store (V : Type u) where
  data : List (String × CacheEntry V)
  hits : Nat
  misses : Nat
  deriving Repr, DecidableEq

/-- First entry bound to `key`, newest first (a `set` conses the fresh entry
in front after erasing the old binding, so lookup order is immaterial). -/
def lookupEntry (key : String) : List (String × CacheEntry V) → Option (CacheEntry V)
  | [] => none
  | (k, e) :: rest => if k = key then some e else lookupEntry key rest

/-- Modelled from the spec: the expiry check lives inside the `node-cache`
library (not under `src/`), whose contract the spec states as "an entry is
observable via `get` if and only if `now < expiresAt`; expired entries must
not be returned even if not yet physically swept", with `hits` incremented on
a live hit and `misses` otherwise. -/
def cacheGet (now : Int) (key : String) (s : Store V) : Option V × Store V :=
  match lookupEntry key s.data with
  | some e =>
      if now < e.expiresAt then (some e.value, { s with hits := s.hits + 1 })
      else (none, { s with misses := s.misses + 1 })
  | none => (none, { s with misses := s.misses + 1 })

/-- `node-cache` `set`: overwrite any existing binding for `key`, the fresh
entry expiring `ttl` seconds from now. -/
def cacheSet (now : Int) (key : String) (v : V) (ttl : Int) (s : Store V) : Store V :=
  { s with data := (key, ⟨v, now + ttl⟩) :: s.data.filter (fun p => p.1 ≠ key) }

/-- Modelled from the spec: `flushAll` is implemented by `node-cache` (not
under `src/`); per the spec it "empties the store entirely; stats counters are
untouched (they are lifetime totals, not store-size metrics)". -/
def cacheFlushAll (s : Store V) : Store V :=
  { s with data := [] }

/-- `cacheClient.get` (config/cache.js): any internal error of the underlying
`cache.get` is caught and turned into `null`; `undefined` is also mapped to
`null`.  `Except.error` models a thrown error, `Option` models
value-or-null. -/
def catchToNull : Except String (Option V) → Option V
  | .ok v => v
  | .error _ => none

/-- `cacheClient.get`: the wrapper around `cacheGet` with the catch-to-null
guard (the modelled `cacheGet` is total, so the guard sees an `ok`). -/
def cacheClientGet (now : Int) (key : String) (s : Store V) : Option V × Store V :=
  (catchToNull (.ok (cacheGet now key s).1), (cacheGet now key s).2)

/-- `cacheClient.set` (config/cache.js): `const ttl = options.EX || cacheExpiration`
— a falsy `EX` (absent, or `0`) falls back to the configured baseline
`cacheExpiration`; the chosen ttl is handed to `cache.set` unvalidated and the
call answers `"OK"`. -/
def cacheClientSet (cacheExpiration : Int) (now : Int) (key : String) (v : V)
    (ex : Option Int) (s : Store V) : String × Store V :=
  let ttl := match ex with
    | some t => if t = 0 then cacheExpiration else t
    | none => cacheExpiration
  ("OK", cacheSet now key v ttl s)

/-- `cacheClient.flushAll` (config/cache.js): flush and answer `"OK"`. -/
def cacheClientFlushAll (s : Store V) : String × Store V :=
  ("OK", cacheFlushAll s)

/-- Default baseline TTL: `parseInt(process.env.CACHE_EXPIRATION) || 43200`
(12 hours) when the environment does not override it. -/
def defaultCacheExpiration : Int := 43200

/-- `generateCacheKey` (weatherService.js): keep the entries whose value is
neither `undefined` nor `null` (`Option.none` models both), serialize each as
`key=value` in the mapping's entry order, join with `&`, and prefix with
`weather:location`, adding `:` before a non-empty query string. -/
def generateCacheKey (location : String) (params : List (String × Option String)) : String :=
  let queryString :=
    String.intercalate "&"
      ((params.filter (fun p => p.2 ≠ none)).map
        (fun p => p.1 ++ "=" ++ p.2.getD ""))
  "weather:" ++ location ++ (if queryString ≠ "" then ":" ++ queryString else "")

/-! ## The weather lookup pipeline (weatherService.js `getWeatherData`) -/

/-- The distinct failures `getWeatherData` can throw, one constructor per
`throw` site of the source (the spec's domain-error taxonomy names them). -/
inductive DomainError where
  /-- `'Location is required'` (rethrown unchanged by the final catch). -/
  | locationRequired
  /-- `'Weather API key is not configured'` (rethrown unchanged). -/
  | apiKeyNotConfigured
  /-- status 400: `'Invalid request: <message>'`. -/
  | invalidRequest (message : String)
  /-- status 401 or 403: `'Invalid API key or authentication error'`. -/
  | authenticationError
  /-- status 404: `'Location not found: <location>'`. -/
  | locationNotFound (location : String)
  /-- status 429: `'API rate limit exceeded'`. -/
  | rateLimitExceeded
  /-- other non-2xx status: `'Weather API error: <message>'`. -/
  | upstreamError (message : String)
  /-- request sent, no response: `'No response from weather service. ...'`. -/
  | upstreamUnavailable
  /-- a 2xx response whose status is not 200: `'API error: <statusText>'`
  (thrown past the axios check, then rethrown by the plain-error branch). -/
  | apiError (message : String)
  /-- an error raised while setting up the request, rethrown unchanged. -/
  | setupError (message : String)
  deriving Repr, DecidableEq

/-- Outcome of the one `axios.get` invocation of a `getWeatherData` call:
a response with some status and body, a sent-but-unanswered request
(`error.request`), or a failure to construct/send the request at all. -/
inductive UpstreamOutcome (V : Type u) where
  | response (status : Nat) (body : V) (message : String)
  | noResponse
  | setupFailure (message : String)
  deriving Repr, DecidableEq

/-- What one `getWeatherData` call produced: its returned value or thrown
error, the cache store afterwards, and how many times it invoked `axios.get`
and `cacheClient.set`. -/
structure FetchResult (V : Type u) where
  result : Except DomainError V
  store : Store V
  upstreamCalls : Nat
  cacheSets : Nat

/-- The cache-miss tail of `getWeatherData`: one `axios.get` with outcome
`upstream`.  Axios resolves for 2xx statuses (default `validateStatus`) and
rejects with `error.response` otherwise;  a resolved non-200 trips the
`response.status !== 200` guard; a 200 stores the body with
`{EX: cacheExpiration}` and returns it.  The rejection is classified by the
catch block: 400, 401/403, 404, 429, other non-2xx, no response, setup
failure. -/
def missFetch (cacheExpiration : Int) (now : Int) (location cacheKey : String)
    (upstream : UpstreamOutcome V) (s : Store V) : FetchResult V :=
  match upstream with
  | .response status body message =>
      if 200 ≤ status ∧ status < 300 then
        if status ≠ 200 then ⟨.error (.apiError message), s, 1, 0⟩
        else
          ⟨.ok body, (cacheClientSet cacheExpiration now cacheKey body
              (some cacheExpiration) s).2, 1, 1⟩
      else
        if status = 400 then ⟨.error (.invalidRequest message), s, 1, 0⟩
        else if status = 401 ∨ status = 403 then ⟨.error .authenticationError, s, 1, 0⟩
        else if status = 404 then ⟨.error (.locationNotFound location), s, 1, 0⟩
        else if status = 429 then ⟨.error .rateLimitExceeded, s, 1, 0⟩
        else ⟨.error (.upstreamError message), s, 1, 0⟩
  | .noResponse => ⟨.error .upstreamUnavailable, s, 1, 0⟩
  | .setupFailure message => ⟨.error (.setupError message), s, 1, 0⟩

/-- `getWeatherData` (weatherService.js): validate the location (`!location`)
and the configured API key, derive the cache key, consult the cache
(`if (cachedData)` is a JS truthiness test, hence `truthy`), return a truthy
cached value as a hit, and otherwise run the miss path against the upstream
outcome. -/
def getWeatherData (truthy : V → Bool) (apiKey : Option String) (cacheExpiration : Int)
    (now : Int) (location : String) (params : List (String × Option String))
    (upstream : UpstreamOutcome V) (s : Store V) : FetchResult V :=
  if location = "" then ⟨.error .locationRequired, s, 0, 0⟩
  else
    match apiKey with
    | none => ⟨.error .apiKeyNotConfigured, s, 0, 0⟩
    | some _ =>
        let cacheKey := generateCacheKey location params
        match cacheClientGet now cacheKey s with
        | (some v, s1) =>
            if truthy v then ⟨.ok v, s1, 0, 0⟩
            else missFetch cacheExpiration now location cacheKey upstream s1
        | (none, s1) => missFetch cacheExpiration now location cacheKey upstream s1

/-! ## Forecast projection (weatherRoutes.js `/:location/forecast`) -/

/-- The `days` query-string value as the route's guard sees it: absent (or
falsy, e.g. the empty string), a string failing `isNaN`, or a numeric string
with integer value `q` (`days > 0` compares that value; `parseInt` yields
it). -/
inductive DaysParam where
  | absent
  | nonNumeric (s : String)
  | numeric (q : Int)
  deriving Repr, DecidableEq

/-- The truncation step of the forecast route:
`if (days && !isNaN(days) && days > 0) forecastDays = forecastDays.slice(0, parseInt(days))`
— truncate to the first `q` days only for a numeric, strictly positive count,
else pass the sequence through unchanged. -/
def filterForecastDays {D : Type u} (days : DaysParam) (forecastDays : List D) : List D :=
  match days with
  | .numeric q => if 0 < q then forecastDays.take q.toNat else forecastDays
  | _ => forecastDays

/-! ## Reference-sharing store (`useClones: false`)

`config/cache.js` creates the store with `useClones: false` ("don't clone
data for better performance with large objects"): values are stored and
returned by reference, not copied.  `node-cache`'s handling of the flag is
not under `src/`; its documented no-clone semantics is modelled by an
explicit heap — `heap` holds the shared mutable values, addresses index it,
and the key table binds keys to addresses. -/

/-- A store of references: cache entries are addresses into a shared heap of
mutable values. -/
structure RefStore (V : Type u) where
  heap : List V
  table : List (String × Nat)
  deriving Repr, DecidableEq

/-- Address bound to a key, if any. -/
def refLookup (key : String) : List (String × Nat) → Option Nat
  | [] => none
  | (k, a) :: rest => if k = key then some a else refLookup key rest

/-- `get` under `useClones: false`: hand the caller the stored reference
itself (no copy-out). -/
def refGet (rs : RefStore V) (key : String) : Option Nat :=
  refLookup key rs.table

/-- Dereference an address in the shared heap. -/
def refRead (rs : RefStore V) (a : Nat) : Option V :=
  rs.heap.get? a

/-- A caller mutating, in place, the value behind a reference it holds. -/
def mutateRef (rs : RefStore V) (a : Nat) (v : V) : RefStore V :=
  { rs with heap := rs.heap.set a v }

/-- The value a reader observes for `key`: dereference the address `get`
returns. -/
def refObserve (rs : RefStore V) (key : String) : Option V :=
  (refGet rs key).bind (refRead rs)

/-- JS truthiness of a value-or-null, as `if (cachedData)` tests it:
`null` is falsy, a value is as truthy as `truthy` says. -/
def jsTruthyOpt (truthy : V → Bool) : Option V → Bool
  | none => false
  | some v => truthy v

/-! ## Helper lemmas -/

lemma cacheClientGet_snd_data (now : Int) (key : String) (s : Store V) :
    (cacheClientGet now key s).2.data = s.data := by
  simp only [cacheClientGet, cacheGet]
  rcases lookupEntry key s.data with _ | e
  · rfl
  · dsimp only
    split <;> rfl

lemma cacheClientGet_fst_some_iff (now : Int) (key : String) (s : Store V) (v : V) :
    (cacheClientGet now key s).1 = some v ↔
      ∃ e, lookupEntry key s.data = some e ∧ e.value = v ∧ now < e.expiresAt := by
  simp only [cacheClientGet, catchToNull, cacheGet]
  rcases h : lookupEntry key s.data with _ | e
  · simp
  · dsimp only
    by_cases hlt : now < e.expiresAt
    · simp only [if_pos hlt]
      constructor
      · rintro h'
        exact ⟨e, rfl, (Option.some.injEq _ _).mp h', hlt⟩
      · rintro ⟨e', he', hv, _⟩
        cases (Option.some.injEq _ _).mp he'
        exact congrArg some hv
    · simp only [if_neg hlt]
      constructor
      · rintro ⟨⟩
      · rintro ⟨e', he', _, hlt'⟩
        cases (Option.some.injEq _ _).mp he'
        exact absurd hlt' hlt

lemma jsTruthyOpt_some (truthy : V → Bool) (v : V) :
    jsTruthyOpt truthy (some v) = truthy v := rfl

lemma getWeatherData_miss (truthy : V → Bool) (k : String) (E now : Int)
    (location : String) (params : List (String × Option String))
    (upstream : UpstreamOutcome V) (s : Store V)
    (hloc : location ≠ "")
    (hmiss : jsTruthyOpt truthy (cacheClientGet now (generateCacheKey location params) s).1 = false) :
    getWeatherData truthy (some k) E now location params upstream s =
      missFetch E now location (generateCacheKey location params) upstream
        (cacheClientGet now (generateCacheKey location params) s).2 := by
  simp only [getWeatherData, if_neg hloc]
  rcases hget : cacheClientGet now (generateCacheKey location params) s with ⟨ov, s1⟩
  rw [hget] at hmiss
  rcases ov with _ | v
  · rfl
  · rw [jsTruthyOpt_some] at hmiss
    simp [hmiss]

lemma missFetch_non2xx {E now : Int} {location key : String} {status : Nat}
    {body : V} {msg : String} {s : Store V}
    (h : status < 200 ∨ 300 ≤ status) :
    missFetch E now location key (.response status body msg) s =
      ⟨.error
          (if status = 400 then .invalidRequest msg
           else if status = 401 ∨ status = 403 then .authenticationError
           else if status = 404 then .locationNotFound location
           else if status = 429 then .rateLimitExceeded
           else .upstreamError msg),
        s, 1, 0⟩ := by
  simp only [missFetch]
  rw [if_neg (by omega)]
  split_ifs <;> rfl

lemma missFetch_error_frame {E now : Int} {location key : String}
    {upstream : UpstreamOutcome V} {s : Store V} {e : DomainError}
    (h : (missFetch E now location key upstream s).result = .error e) :
    (missFetch E now location key upstream s).store.data = s.data ∧
      (missFetch E now location key upstream s).cacheSets = 0 := by
  rcases upstream with ⟨status, body, msg⟩ | _ | msg
  · simp only [missFetch] at h ⊢
    split_ifs at h ⊢ <;> simp_all
  · exact ⟨rfl, rfl⟩
  · exact ⟨rfl, rfl⟩

end WeatherAPI

namespace WeatherAPI

universe v

/-- C5: an entry is observable via `get` exactly when the current time is
strictly before its `expiresAt`; an expired entry still physically in the
table (not yet swept) is reported absent. -/
theorem spec_C5_expiry_invariant {V : Type v} :
    ∀ (now : Int) (key : String) (s : Store V) (v : V),
      (cacheClientGet now key s).1 = some v ↔
        ∃ e, lookupEntry key s.data = some e ∧ e.value = v ∧ now < e.expiresAt :=
  fun now key s v => cacheClientGet_fst_some_iff now key s v

/-- C5 witness: a live entry is returned; the same entry is absent once its
expiry has passed, though still physically present. -/
theorem spec_C5_expiry_invariant_witness :
    (cacheClientGet 3 "k" (⟨[("k", ⟨(7 : ℕ), 10⟩)], 0, 0⟩ : Store ℕ)).1 = some 7 ∧
      ¬ (cacheClientGet 10 "k" (⟨[("k", ⟨(7 : ℕ), 10⟩)], 0, 0⟩ : Store ℕ)).1 = some 7 := by
  constructor
  · exact (spec_C5_expiry_invariant 3 "k" _ 7).mpr ⟨⟨7, 10⟩, rfl, rfl, by decide⟩
  · intro h
    rcases (spec_C5_expiry_invariant 10 "k" _ 7).mp h with ⟨e, he, -, hlt⟩
    rw [show lookupEntry "k" [("k", (⟨7, 10⟩ : CacheEntry ℕ))] = some ⟨7, 10⟩ from rfl] at he
    cases (Option.some.injEq _ _).mp he
    exact absurd hlt (by decide)

/-- C6 counterexample: `set` with `ttlSeconds = 0` — not a positive integer —
does not fail with `InvalidArgument`; it succeeds with `"OK"`, silently
storing the entry under the baseline TTL (`options.EX || cacheExpiration`
treats `0` as absent). -/
theorem spec_C6_counterexample :
    (cacheClientSet 43200 0 "k" (7 : ℕ) (some 0) ⟨[], 0, 0⟩).1 = "OK" ∧
      (cacheClientSet 43200 0 "k" (7 : ℕ) (some 0) ⟨[], 0, 0⟩).2 =
        ⟨[("k", ⟨7, 43200⟩)], 0, 0⟩ := by
  exact ⟨rfl, rfl⟩

/-- C6 amended: `set` never fails — it always answers `"OK"`; a falsy
`ttlSeconds` (absent or `0`) is replaced by the configured baseline, and any
other value, positive or not, is used as given. -/
theorem spec_C6_set_default_ttl {V : Type v} :
    ∀ (E now : Int) (key : String) (v : V) (ex : Option Int) (s : Store V),
      (cacheClientSet E now key v ex s).1 = "OK" ∧
      ((ex = none ∨ ex = some 0) →
        (cacheClientSet E now key v ex s).2.data =
          (key, ⟨v, now + E⟩) :: s.data.filter (fun p => p.1 ≠ key)) ∧
      (∀ t : Int, ex = some t → t ≠ 0 →
        (cacheClientSet E now key v ex s).2.data =
          (key, ⟨v, now + t⟩) :: s.data.filter (fun p => p.1 ≠ key)) := by
  intro E now key v ex s
  refine ⟨rfl, ?_, ?_⟩
  · rintro (rfl | rfl)
    · rfl
    · simp [cacheClientSet, cacheSet]
  · rintro t rfl ht
    simp [cacheClientSet, cacheSet, if_neg ht]

/-- C6 amended witness: an absent TTL stores with the baseline expiry. -/
theorem spec_C6_set_default_ttl_witness :
    (cacheClientSet 43200 5 "a" (3 : ℕ) none ⟨[], 0, 0⟩).2.data = [("a", ⟨3, 43205⟩)] := by
  have h := (spec_C6_set_default_ttl 43200 5 "a" (3 : ℕ) none ⟨[], 0, 0⟩).2.1 (Or.inl rfl)
  simpa using h

/-- C7: `flushAll` empties the store — every subsequent `get` answers absent
— while the lifetime hit/miss counters are exactly preserved. -/
theorem spec_C7_flush_frame {V : Type v} :
    ∀ (s : Store V),
      (cacheClientFlushAll s).1 = "OK" ∧
      (cacheClientFlushAll s).2.data = [] ∧
      (cacheClientFlushAll s).2.hits = s.hits ∧
      (cacheClientFlushAll s).2.misses = s.misses ∧
      ∀ (now : Int) (key : String), (cacheClientGet now key (cacheClientFlushAll s).2).1 = none :=
  fun _ => ⟨rfl, rfl, rfl, rfl, fun _ _ => rfl⟩

/-- C7 witness: flushing a populated store with nonzero counters. -/
theorem spec_C7_flush_frame_witness :
    (cacheClientFlushAll (⟨[("k", ⟨(7 : ℕ), 10⟩)], 4, 2⟩ : Store ℕ)).2.data = [] ∧
      (cacheClientFlushAll (⟨[("k", ⟨(7 : ℕ), 10⟩)], 4, 2⟩ : Store ℕ)).2.hits = 4 ∧
      (cacheClientGet 0 "k" (cacheClientFlushAll (⟨[("k", ⟨(7 : ℕ), 10⟩)], 4, 2⟩ : Store ℕ)).2).1 = none := by
  have h := spec_C7_flush_frame (⟨[("k", ⟨(7 : ℕ), 10⟩)], 4, 2⟩ : Store ℕ)
  exact ⟨h.2.1, h.2.2.1, h.2.2.2.2 0 "k"⟩

/-- C10: the cache-consultation step is total — the catch guard maps any
internal error to `null`, so `cacheClient.get` yields either `null` or a
value, and a returned value is one physically stored in the table. -/
theorem spec_C10_get_total {V : Type v} :
    (∀ r : Except String (Option V),
        catchToNull r = none ∨ ∃ v, r = .ok (some v) ∧ catchToNull r = some v) ∧
    (∀ (now : Int) (key : String) (s : Store V) (v : V),
        (cacheClientGet now key s).1 = some v →
          ∃ e, lookupEntry key s.data = some e ∧ e.value = v) := by
  constructor
  · intro r
    match r with
    | .ok none => exact Or.inl rfl
    | .ok (some v) => exact Or.inr ⟨v, rfl, rfl⟩
    | .error _ => exact Or.inl rfl
  · intro now key s v h
    rcases (cacheClientGet_fst_some_iff now key s v).mp h with ⟨e, he, hv, -⟩
    exact ⟨e, he, hv⟩

/-- C10 witness: an internal error is observed as `null`, and a concrete
`get` answer comes from the stored entry. -/
theorem spec_C10_get_total_witness :
    catchToNull (.error "boom" : Except String (Option ℕ)) = none ∧
      ∃ e, lookupEntry "k" [("k", (⟨(5 : ℕ), 10⟩ : CacheEntry ℕ))] = some e ∧ e.value = 5 := by
  constructor
  · rcases (spec_C10_get_total (V := ℕ)).1 (.error "boom") with h | ⟨v, hv, -⟩
    · exact h
    · cases hv
  · exact (spec_C10_get_total (V := ℕ)).2 0 "k" ⟨[("k", ⟨5, 10⟩)], 0, 0⟩ 5 (by decide)

/-- C4 counterexample: two parameter mappings holding the same key/value
pairs in different entry orders derive different cache keys —
`generateCacheKey` serializes `Object.entries` in the mapping's entry order
and never sorts. -/
theorem spec_C4_counterexample :
    List.Perm [("a", some "1"), ("b", some "2")] [("b", some "2"), ("a", some "1")] ∧
      generateCacheKey "L" [("a", some "1"), ("b", some "2")] ≠
        generateCacheKey "L" [("b", some "2"), ("a", some "1")] := by
  constructor
  · exact List.Perm.swap _ _ _
  · decide

/-- C4 amended: the derived key is deterministic in the mapping's entry
order and ignores entries whose value is `undefined`/`null` (removing such an
entry anywhere leaves the key unchanged), but it is not invariant under
reordering the defined entries. -/
theorem spec_C4_key_ignores_null_entries :
    ∀ (location : String) (xs ys : List (String × Option String)) (k : String),
      generateCacheKey location (xs ++ (k, none) :: ys) =
        generateCacheKey location (xs ++ ys) := by
  intro location xs ys k
  simp [generateCacheKey, List.filter_append]

/-- C4 amended witness: dropping a `null`-valued entry leaves the key
unchanged. -/
theorem spec_C4_key_ignores_null_entries_witness :
    generateCacheKey "L" [("a", some "1"), ("b", none)] =
      generateCacheKey "L" [("a", some "1")] :=
  spec_C4_key_ignores_null_entries "L" [("a", some "1")] [] "b"

/-- C8: a numeric, strictly positive requested count truncates the forecast
to exactly the first `min(count, length)` days in order (the truncation is a
prefix: followed by the dropped suffix it restores the original sequence); a
zero, negative, non-numeric or absent count leaves the sequence untouched. -/
theorem spec_C8_forecast_truncation {D : Type v} :
    ∀ (q : Int) (str : String) (ds : List D),
      (0 < q →
        filterForecastDays (.numeric q) ds = ds.take q.toNat ∧
        (filterForecastDays (.numeric q) ds).length = min q.toNat ds.length ∧
        filterForecastDays (.numeric q) ds ++ ds.drop q.toNat = ds) ∧
      (q ≤ 0 → filterForecastDays (.numeric q) ds = ds) ∧
      filterForecastDays (.nonNumeric str) ds = ds ∧
      filterForecastDays .absent ds = ds := by
  intro q str ds
  refine ⟨?_, ?_, rfl, rfl⟩
  · intro hq
    have hdef : filterForecastDays (.numeric q) ds = ds.take q.toNat := by
      simp only [filterForecastDays, if_pos hq]
    refine ⟨hdef, ?_, ?_⟩
    · rw [hdef]
      exact List.length_take _ _
    · rw [hdef]
      exact List.take_append_drop _ _
  · intro hq
    simp only [filterForecastDays, if_neg (not_lt.mpr hq)]

/-- C8 witness: 10 forecast days truncated by a requested count of 5 give
the first 5 days; counts of 0 and a non-numeric string give the full
sequence. -/
theorem spec_C8_forecast_truncation_witness :
    filterForecastDays (.numeric 5) [(0 : ℕ), 1, 2, 3, 4, 5, 6, 7, 8, 9] = [0, 1, 2, 3, 4] ∧
      filterForecastDays (.numeric 0) [(0 : ℕ), 1, 2] = [0, 1, 2] ∧
      filterForecastDays (.nonNumeric "abc") [(0 : ℕ), 1, 2] = [0, 1, 2] := by
  refine ⟨?_, ?_, ?_⟩
  · have h := ((spec_C8_forecast_truncation 5 "abc" [(0 : ℕ), 1, 2, 3, 4, 5, 6, 7, 8, 9]).1
      (by decide)).1
    rw [h]
    rfl
  · exact (spec_C8_forecast_truncation 0 "abc" [(0 : ℕ), 1, 2]).2.1 (by decide)
  · exact (spec_C8_forecast_truncation 0 "abc" [(0 : ℕ), 1, 2]).2.2.1

/-- C9 counterexample: with the store's reference semantics
(`useClones: false`), a reader that obtained the reference for `"k"` via
`get` and mutates the value behind it changes the entry every later reader
observes — from `7` to `99` — refuting copy-in/copy-out ownership. -/
theorem spec_C9_counterexample :
    refGet (⟨[7], [("k", 0)]⟩ : RefStore ℕ) "k" = some 0 ∧
      refObserve (⟨[7], [("k", 0)]⟩ : RefStore ℕ) "k" = some 7 ∧
      refObserve (mutateRef (⟨[7], [("k", 0)]⟩ : RefStore ℕ) 0 99) "k" = some 99 :=
  ⟨rfl, rfl, rfl⟩

/-- C9 amended: cache entries are held and handed out by reference
(`useClones: false`): mutating the value behind a reference returned by `get`
is immediately observed by the store and so by every other reader of the same
key. -/
theorem spec_C9_reference_semantics {V : Type v} :
    ∀ (rs : RefStore V) (key : String) (a : Nat) (v : V),
      refGet rs key = some a → a < rs.heap.length →
        refObserve (mutateRef rs a v) key = some v := by
  intro rs key a v hget hlt
  have htab : refGet (mutateRef rs a v) key = some a := hget
  show (refGet (mutateRef rs a v) key).bind (refRead (mutateRef rs a v)) = some v
  rw [htab]
  show (rs.heap.set a v).get? a = some v
  exact List.get?_set_eq_of_lt v hlt

/-- C9 amended witness: mutating address 1, returned by `get "x"`, makes
every observer of `"x"` see the new value. -/
theorem spec_C9_reference_semantics_witness :
    refObserve (mutateRef (⟨[1, 2], [("x", 1)]⟩ : RefStore ℕ) 1 5) "x" = some 5 :=
  spec_C9_reference_semantics (⟨[1, 2], [("x", 1)]⟩ : RefStore ℕ) "x" 1 5 rfl (by decide)

/-- C1: cache-aside correctness — on a cold key, a fetch with a 200 upstream
response makes exactly one upstream call and one cache `set` and returns the
body; an immediately repeated fetch within the TTL window makes zero upstream
calls and zero sets and returns the same value, whatever the upstream would
have answered. -/
theorem spec_C1_cache_aside {V : Type v} (truthy : V → Bool) (k : String)
    (E now1 now2 : Int) (location : String) (params : List (String × Option String))
    (body : V) (msg : String) (s : Store V)
    (hloc : location ≠ "")
    (hmiss : jsTruthyOpt truthy
      (cacheClientGet now1 (generateCacheKey location params) s).1 = false)
    (hbody : truthy body = true)
    (hwin : now2 < now1 + E) :
    (getWeatherData truthy (some k) E now1 location params
        (.response 200 body msg) s).result = .ok body ∧
    (getWeatherData truthy (some k) E now1 location params
        (.response 200 body msg) s).upstreamCalls = 1 ∧
    (getWeatherData truthy (some k) E now1 location params
        (.response 200 body msg) s).cacheSets = 1 ∧
    ∀ upstream2 : UpstreamOutcome V,
      (getWeatherData truthy (some k) E now2 location params upstream2
          (getWeatherData truthy (some k) E now1 location params
            (.response 200 body msg) s).store).result = .ok body ∧
      (getWeatherData truthy (some k) E now2 location params upstream2
          (getWeatherData truthy (some k) E now1 location params
            (.response 200 body msg) s).store).upstreamCalls = 0 ∧
      (getWeatherData truthy (some k) E now2 location params upstream2
          (getWeatherData truthy (some k) E now1 location params
            (.response 200 body msg) s).store).cacheSets = 0 := by
  have h1 := getWeatherData_miss truthy k E now1 location params
    (.response 200 body msg) s hloc hmiss
  have h2 : missFetch E now1 location (generateCacheKey location params)
      (.response 200 body msg) (cacheClientGet now1 (generateCacheKey location params) s).2 =
      ⟨.ok body,
        (cacheClientSet E now1 (generateCacheKey location params) body (some E)
          (cacheClientGet now1 (generateCacheKey location params) s).2).2, 1, 1⟩ := by
    simp [missFetch]
  rw [h1, h2]
  refine ⟨rfl, rfl, rfl, ?_⟩
  intro upstream2
  have hr1data : (cacheClientSet E now1 (generateCacheKey location params) body (some E)
      (cacheClientGet now1 (generateCacheKey location params) s).2).2.data =
      (generateCacheKey location params, ⟨body, now1 + E⟩) ::
        (cacheClientGet now1 (generateCacheKey location params) s).2.data.filter
          (fun p => p.1 ≠ generateCacheKey location params) := by
    simp [cacheClientSet, cacheSet]
  have hlook : lookupEntry (generateCacheKey location params)
      (cacheClientSet E now1 (generateCacheKey location params) body (some E)
        (cacheClientGet now1 (generateCacheKey location params) s).2).2.data =
      some ⟨body, now1 + E⟩ := by
    rw [hr1data]
    simp [lookupEntry]
  have hstep : ∀ S : Store V,
      lookupEntry (generateCacheKey location params) S.data = some ⟨body, now1 + E⟩ →
      (getWeatherData truthy (some k) E now2 location params upstream2 S).result = .ok body ∧
      (getWeatherData truthy (some k) E now2 location params upstream2 S).upstreamCalls = 0 ∧
      (getWeatherData truthy (some k) E now2 location params upstream2 S).cacheSets = 0 := by
    intro S hlookS
    have hget2 : cacheClientGet now2 (generateCacheKey location params) S =
        (some body, { S with hits := S.hits + 1 }) := by
      simp [cacheClientGet, catchToNull, cacheGet, hlookS, hwin]
    simp [getWeatherData, if_neg hloc, hget2, hbody]
  exact hstep _ hlook

/-- C1 witness: a concrete first fetch for London on a cold cache stores and
returns the body with one upstream call; the repeated fetch 100 s later
returns it with no upstream call even against a dead upstream. -/
theorem spec_C1_cache_aside_witness :
    (getWeatherData (fun n => n != 0) (some "K") 43200 0 "London"
        [("unitGroup", some "metric")] (.response 200 (7 : ℕ) "") ⟨[], 0, 0⟩).result = .ok 7 ∧
      (getWeatherData (fun n => n != 0) (some "K") 43200 0 "London"
        [("unitGroup", some "metric")] (.response 200 (7 : ℕ) "") ⟨[], 0, 0⟩).upstreamCalls = 1 ∧
      (getWeatherData (fun n => n != 0) (some "K") 43200 100 "London"
          [("unitGroup", some "metric")] .noResponse
          (getWeatherData (fun n => n != 0) (some "K") 43200 0 "London"
            [("unitGroup", some "metric")] (.response 200 (7 : ℕ) "") ⟨[], 0, 0⟩).store).result
        = .ok 7 ∧
      (getWeatherData (fun n => n != 0) (some "K") 43200 100 "London"
          [("unitGroup", some "metric")] .noResponse
          (getWeatherData (fun n => n != 0) (some "K") 43200 0 "London"
            [("unitGroup", some "metric")] (.response 200 (7 : ℕ) "") ⟨[], 0, 0⟩).store).upstreamCalls
        = 0 := by
  have h := spec_C1_cache_aside (fun n => n != 0) "K" 43200 0 100 "London"
    [("unitGroup", some "metric")] (7 : ℕ) "" ⟨[], 0, 0⟩
    (by decide) (by decide) (by decide) (by decide)
  exact ⟨h.1, h.2.1, (h.2.2.2 .noResponse).1, (h.2.2.2 .noResponse).2.1⟩

/-- C2: error classification — with a cold cache, an upstream response whose
status is outside 2xx fails the fetch with the domain error determined by the
status (400 invalid request; 401/403 authentication; 404 location not found;
429 rate limit; any other non-2xx upstream error), and a sent request that
receives no response fails with upstream-unavailable. -/
theorem spec_C2_error_classification {V : Type v} (truthy : V → Bool) (k : String)
    (E now : Int) (location : String) (params : List (String × Option String))
    (status : Nat) (body : V) (msg : String) (s : Store V)
    (hloc : location ≠ "")
    (hmiss : jsTruthyOpt truthy
      (cacheClientGet now (generateCacheKey location params) s).1 = false) :
    (status = 400 →
      (getWeatherData truthy (some k) E now location params
          (.response status body msg) s).result = .error (.invalidRequest msg)) ∧
    ((status = 401 ∨ status = 403) →
      (getWeatherData truthy (some k) E now location params
          (.response status body msg) s).result = .error .authenticationError) ∧
    (status = 404 →
      (getWeatherData truthy (some k) E now location params
          (.response status body msg) s).result = .error (.locationNotFound location)) ∧
    (status = 429 →
      (getWeatherData truthy (some k) E now location params
          (.response status body msg) s).result = .error .rateLimitExceeded) ∧
    ((status < 200 ∨ 300 ≤ status) → status ≠ 400 → status ≠ 401 → status ≠ 403 →
      status ≠ 404 → status ≠ 429 →
      (getWeatherData truthy (some k) E now location params
          (.response status body msg) s).result = .error (.upstreamError msg)) ∧
    (getWeatherData truthy (some k) E now location params
        .noResponse s).result = .error .upstreamUnavailable := by
  have hrw : ∀ upstream : UpstreamOutcome V,
      getWeatherData truthy (some k) E now location params upstream s =
        missFetch E now location (generateCacheKey location params) upstream
          (cacheClientGet now (generateCacheKey location params) s).2 :=
    fun upstream => getWeatherData_miss truthy k E now location params upstream s hloc hmiss
  refine ⟨?_, ?_, ?_, ?_, ?_, ?_⟩
  · rintro rfl
    rw [hrw, missFetch_non2xx (by omega)]
    simp
  · rintro (rfl | rfl) <;>
      [rw [hrw, missFetch_non2xx (by omega)]; rw [hrw, missFetch_non2xx (by omega)]] <;>
      simp
  · rintro rfl
    rw [hrw, missFetch_non2xx (by omega)]
    simp
  · rintro rfl
    rw [hrw, missFetch_non2xx (by omega)]
    simp
  · intro hnon h400 h401 h403 h404 h429
    rw [hrw, missFetch_non2xx hnon]
    simp [h400, h401, h403, h404, h429]
  · rw [hrw]
    rfl

/-- C2 witness: a 404 on a cold cache yields location-not-found for London;
no response yields upstream-unavailable. -/
theorem spec_C2_error_classification_witness :
    (getWeatherData (fun n => n != 0) (some "K") 43200 0 "London" []
        (.response 404 (7 : ℕ) "nope") ⟨[], 0, 0⟩).result = .error (.locationNotFound "London") ∧
      (getWeatherData (fun n => n != 0) (some "K") 43200 0 "London" []
        .noResponse (⟨[], 0, 0⟩ : Store ℕ)).result = .error .upstreamUnavailable := by
  have h := spec_C2_error_classification (fun n => n != 0) "K" 43200 0 "London" []
    404 (7 : ℕ) "nope" ⟨[], 0, 0⟩ (by decide) (by decide)
  exact ⟨h.2.2.1 rfl, h.2.2.2.2.2⟩

/-- C3: failures are never cached — whenever a fetch fails (for any reason:
invalid location, missing key, any upstream failure) it performs no cache
`set` and leaves the store's contents exactly as they were, so an identical
retry consults the upstream again rather than replaying a cached error. -/
theorem spec_C3_failures_not_cached {V : Type v} (truthy : V → Bool)
    (apiKey : Option String) (E now : Int) (location : String)
    (params : List (String × Option String)) (upstream : UpstreamOutcome V)
    (s : Store V) (e : DomainError)
    (h : (getWeatherData truthy apiKey E now location params upstream s).result = .error e) :
    (getWeatherData truthy apiKey E now location params upstream s).store.data = s.data ∧
      (getWeatherData truthy apiKey E now location params upstream s).cacheSets = 0 := by
  by_cases hloc : location = ""
  · simp [getWeatherData, hloc]
  · cases apiKey with
    | none => simp [getWeatherData, hloc]
    | some k =>
        rcases hget : cacheClientGet now (generateCacheKey location params) s with ⟨ov, s1⟩
        have hdata : s1.data = s.data := by
          have hd := cacheClientGet_snd_data now (generateCacheKey location params) s
          rw [hget] at hd
          exact hd
        rcases ov with _ | v
        · have heq : getWeatherData truthy (some k) E now location params upstream s =
              missFetch E now location (generateCacheKey location params) upstream s1 := by
            have hm := getWeatherData_miss truthy k E now location params upstream s hloc
              (by rw [hget]; rfl)
            rw [hget] at hm
            exact hm
          rw [heq] at h ⊢
          rcases missFetch_error_frame h with ⟨hfd, hfs⟩
          exact ⟨hfd.trans hdata, hfs⟩
        · by_cases htr : truthy v = true
          · have heq : getWeatherData truthy (some k) E now location params upstream s =
                ⟨.ok v, s1, 0, 0⟩ := by
              simp [getWeatherData, if_neg hloc, hget, htr]
            rw [heq] at h
            exact absurd h (by simp)
          · have heq : getWeatherData truthy (some k) E now location params upstream s =
                missFetch E now location (generateCacheKey location params) upstream s1 := by
              have hm := getWeatherData_miss truthy k E now location params upstream s hloc
                (by rw [hget]; show truthy v = false; exact Bool.not_eq_true _ ▸ htr)
              rw [hget] at hm
              exact hm
            rw [heq] at h ⊢
            rcases missFetch_error_frame h with ⟨hfd, hfs⟩
            exact ⟨hfd.trans hdata, hfs⟩

/-- C3 witness: a fetch that dies with no upstream response leaves the
(empty) store contents untouched and performs no `set`. -/
theorem spec_C3_failures_not_cached_witness :
    (getWeatherData (fun n => n != 0) (some "K") 43200 0 "London" []
        .noResponse (⟨[], 0, 0⟩ : Store ℕ)).store.data = [] ∧
      (getWeatherData (fun n => n != 0) (some "K") 43200 0 "London" []
        .noResponse (⟨[], 0, 0⟩ : Store ℕ)).cacheSets = 0 :=
  spec_C3_failures_not_cached (fun n => n != 0) (some "K") 43200 0 "London" []
    .noResponse ⟨[], 0, 0⟩ .upstreamUnavailable (by rfl)

end WeatherAPI
